import Mathlib

/-!
Shallow embedding of
`source/packages/@aws-accelerator/accelerator/lib/pipeline.ts`
(the Landing Zone Accelerator pipeline stage-graph builder), together with
theorems settling the specification claims about it.

The TypeScript constructor `AcceleratorPipeline` builds a static description
of a CodePipeline: an ordered list of stages, each with a list of actions.
We embed that description as pure data (`PipelineDescription`, `Stage`,
`Action`) and the construction logic as total functions, mirroring the
source line by line.  Optional TypeScript string fields become
`Option String`; JavaScript truthiness tests on them (`if (props.stage)`,
`a && b`) are modelled by `tsTruthy`; template interpolation of an
`undefined` value (`` `${props.stage}` `` with `props.stage` undefined)
produces the literal text "undefined", modelled by `tsInterpOpt`.
-/

namespace LZA

/-- JavaScript truthiness of an optional string: `undefined` and the empty
string are falsy, every other string is truthy. -/
def tsTruthy : Option String → Bool
  | none => false
  | some s => !(s == "")

/-- TypeScript template-literal interpolation of an optional string:
interpolating `undefined` yields the text "undefined". -/
def tsInterpOpt : Option String → String
  | none => "undefined"
  | some s => s

/-- `codebuild.BuildEnvironmentVariableType` — only `PLAINTEXT` is used in
this file. -/
inductive BuildEnvironmentVariableType
  | PLAINTEXT
  deriving DecidableEq, Repr

/-- `codebuild.BuildEnvironmentVariable`: a type tag and a string value. -/
structure BuildEnvironmentVariable where
  varType : BuildEnvironmentVariableType
  value : String
  deriving DecidableEq, Repr

/-- The shape of a pipeline action, as configured in pipeline.ts.
`codeCommitSource` carries the repository name, the branch, the output
artifact name and the trigger mode; `codeBuild` carries the input artifact,
extra input artifacts, output artifacts and environment variables
(the project and role references are the same two constructs for every
toolkit action and carry no per-action data); `manualApproval` carries
its `additionalInformation` text. -/
inductive ActionKind
  | codeCommitSource (repositoryName : String) (branch : String)
      (output : String) (trigger : String)
  | codeBuild (input : String) (extraInputs : List String)
      (outputs : List String)
      (environmentVariables : List (String × BuildEnvironmentVariable))
  | manualApproval (additionalInformation : String)
  deriving DecidableEq, Repr

/-- A pipeline action: name, run order (CodePipeline defaults an
unspecified `runOrder` to 1) and its kind-specific configuration. -/
structure Action where
  actionName : String
  runOrder : Nat
  kind : ActionKind
  deriving DecidableEq, Repr

/-- A pipeline stage: `stageName` and its ordered action list, as passed to
`pipeline.addStage`. -/
structure Stage where
  stageName : String
  actions : List Action
  deriving DecidableEq, Repr

/-- `AcceleratorPipelineProps` from pipeline.ts. -/
structure AcceleratorPipelineProps where
  sourceRepositoryName : String
  sourceBranchName : String
  enableApprovalStage : Bool
  qualifier : Option String
  managementAccountId : Option String
  managementAccountRoleName : Option String
  deriving DecidableEq, Repr

/-!
Modelled from the spec: the `AcceleratorToolkitCommand` enumeration
lives in `toolkit.ts`, which is not part of the provided sources.  The spec
fixes the command verbs as the closed set bootstrap / diff / deploy, with
the verb itself as the command text.
-/
namespace AcceleratorToolkitCommand

def BOOTSTRAP : String := "bootstrap"

def DIFF : String := "diff"

def DEPLOY : String := "deploy"

end AcceleratorToolkitCommand

/-!
Modelled from the spec: the `AcceleratorStage` enumeration lives in
`accelerator-stage.ts`, which is not part of the provided sources.  The
spec describes the stage tags as domain-specific deployment phase
identifiers such as "accounts", "logging", "network-vpc"; each is a fixed
non-empty string.  Only their non-emptiness and verbatim propagation
matter to the claims.
-/
namespace AcceleratorStage

def PREPARE : String := "prepare"

def ACCOUNTS : String := "accounts"

def LOGGING : String := "logging"

def ORGANIZATIONS : String := "organizations"

def SECURITY_AUDIT : String := "security-audit"

def NETWORK_PREP : String := "network-prep"

def SECURITY : String := "security"

def OPERATIONS : String := "operations"

def NETWORK_VPC : String := "network-vpc"

def NETWORK_ASSOCIATIONS : String := "network-associations"

end AcceleratorStage

/-- Argument record of the private method `createToolkitStage`. -/
structure ToolkitStageProps where
  actionName : String
  command : String
  stage : Option String := none
  runOrder : Option Nat := none
  deriving DecidableEq, Repr

/-- `createToolkitStage` (pipeline.ts lines 370-411): derives the
`CDK_OPTIONS` command string (bare verb for bootstrap/diff, otherwise
`command --stage stage` by template interpolation), attaches
`ACCELERATOR_STAGE` when `props.stage` is truthy, and returns a CodeBuild
action consuming the build output plus the config artifact and producing
nothing. -/
def createToolkitStage (props : ToolkitStageProps) : Action :=
  let cdkOptions : String :=
    if props.command = AcceleratorToolkitCommand.BOOTSTRAP
        ∨ props.command = AcceleratorToolkitCommand.DIFF then
      props.command
    else
      props.command ++ " --stage " ++ tsInterpOpt props.stage
  let environmentVariables : List (String × BuildEnvironmentVariable) :=
    [("CDK_OPTIONS",
      { varType := BuildEnvironmentVariableType.PLAINTEXT, value := cdkOptions })]
  let environmentVariables :=
    if tsTruthy props.stage then
      environmentVariables ++
        [("ACCELERATOR_STAGE",
          { varType := BuildEnvironmentVariableType.PLAINTEXT,
            value := (props.stage).getD "" })]
    else environmentVariables
  { actionName := props.actionName
    runOrder := (props.runOrder).getD 1
    kind := ActionKind.codeBuild "Build" ["Config"] [] environmentVariables }

/-- Lines 55-68: the management-account environment-variable block is built
only when both `managementAccountId` and `managementAccountRoleName` are
truthy; otherwise it stays `undefined` (here `none`). -/
def pipelineAccountEnvVariables (props : AcceleratorPipelineProps) :
    Option (List (String × BuildEnvironmentVariable)) :=
  if tsTruthy props.managementAccountId && tsTruthy props.managementAccountRoleName then
    some
      [("MANAGEMENT_ACCOUNT_ID",
        { varType := BuildEnvironmentVariableType.PLAINTEXT,
          value := (props.managementAccountId).getD "" }),
       ("MANAGEMENT_ACCOUNT_ROLE_NAME",
        { varType := BuildEnvironmentVariableType.PLAINTEXT,
          value := (props.managementAccountRoleName).getD "" })]
  else
    none

/-- Toolkit CodeBuild project environment variables (lines 241-251):
`NODE_OPTIONS`, `CDK_NEW_BOOTSTRAP`, then the spread of
`pipelineAccountEnvVariables` (spreading `undefined` adds nothing). -/
def toolkitProjectEnvironmentVariables (props : AcceleratorPipelineProps) :
    List (String × BuildEnvironmentVariable) :=
  [("NODE_OPTIONS",
    { varType := BuildEnvironmentVariableType.PLAINTEXT,
      value := "--max_old_space_size=4096" }),
   ("CDK_NEW_BOOTSTRAP",
    { varType := BuildEnvironmentVariableType.PLAINTEXT, value := "1" })]
  ++ (pipelineAccountEnvVariables props).getD []

/-- The stage list handed to the pipeline by the constructor
(lines 128-367), in source order.  The `Review` stage is appended iff
`props.enableApprovalStage` (line 279). -/
def describePipeline (props : AcceleratorPipelineProps) : List Stage :=
  [{ stageName := "Source"
     actions :=
       [{ actionName := "Source"
          runOrder := 1
          kind := ActionKind.codeCommitSource props.sourceRepositoryName
            props.sourceBranchName "Source" "NONE" },
        { actionName := "Configuration"
          runOrder := 1
          kind := ActionKind.codeCommitSource
            ((props.qualifier).getD "aws-accelerator" ++ "-config")
            "main" "Config" "NONE" }] },
   { stageName := "Build"
     actions :=
       [{ actionName := "Build"
          runOrder := 1
          kind := ActionKind.codeBuild "Source" ["Config"] ["Build"] [] }] },
   { stageName := "Prepare"
     actions :=
       [createToolkitStage
         { actionName := "Prepare", command := "deploy",
           stage := some AcceleratorStage.PREPARE }] },
   { stageName := "Accounts"
     actions :=
       [createToolkitStage
         { actionName := "Accounts", command := "deploy",
           stage := some AcceleratorStage.ACCOUNTS }] },
   { stageName := "Bootstrap"
     actions :=
       [createToolkitStage
         { actionName := "Bootstrap", command := "bootstrap" }] }]
  ++ (if props.enableApprovalStage then
       [{ stageName := "Review"
          actions :=
            [createToolkitStage
              { actionName := "Diff", command := "diff", runOrder := some 1 },
             { actionName := "Approve"
               runOrder := 2
               kind := ActionKind.manualApproval
                 "See previous stage (Diff) for changes." }] }]
      else [])
  ++ [{ stageName := "Logging"
        actions :=
          [createToolkitStage
            { actionName := "Logging", command := "deploy",
              stage := some AcceleratorStage.LOGGING }] },
      { stageName := "Organization"
        actions :=
          [createToolkitStage
            { actionName := "Organizations", command := "deploy",
              stage := some AcceleratorStage.ORGANIZATIONS }] },
      { stageName := "SecurityAudit"
        actions :=
          [createToolkitStage
            { actionName := "SecurityAudit", command := "deploy",
              stage := some AcceleratorStage.SECURITY_AUDIT }] },
      { stageName := "Deploy"
        actions :=
          [createToolkitStage
            { actionName := "Network_Prepare", command := "deploy",
              stage := some AcceleratorStage.NETWORK_PREP, runOrder := some 1 },
           createToolkitStage
            { actionName := "Security", command := "deploy",
              stage := some AcceleratorStage.SECURITY, runOrder := some 1 },
           createToolkitStage
            { actionName := "Operations", command := "deploy",
              stage := some AcceleratorStage.OPERATIONS, runOrder := some 1 },
           createToolkitStage
            { actionName := "Network_VPCs", command := "deploy",
              stage := some AcceleratorStage.NETWORK_VPC, runOrder := some 2 },
           createToolkitStage
            { actionName := "Network_Associations", command := "deploy",
              stage := some AcceleratorStage.NETWORK_ASSOCIATIONS,
              runOrder := some 3 }] }]

/-- The full static description the constructor assembles: the generated
names (lines 92-97, 106-110, 155-156, 213-214), the toolkit build project
environment and the stage list.  Cloud-context-dependent pieces (the
bucket name embeds the deploying account and region) are outside the
configuration-to-description function and not modelled. -/
structure PipelineDescription where
  pipelineName : String
  configRepositoryName : String
  configRepositoryBranch : String
  buildProjectName : String
  toolkitProjectName : String
  toolkitProjectEnv : List (String × BuildEnvironmentVariable)
  stages : List Stage
  deriving DecidableEq, Repr

/-- The whole constructor as a pure function from configuration to
description. -/
def constructPipeline (props : AcceleratorPipelineProps) : PipelineDescription :=
  { pipelineName :=
      if tsTruthy props.qualifier then (props.qualifier).getD "" ++ "-pipeline"
      else "AWSAccelerator-Pipeline"
    configRepositoryName := (props.qualifier).getD "aws-accelerator" ++ "-config"
    configRepositoryBranch := "main"
    buildProjectName :=
      if tsTruthy props.qualifier then (props.qualifier).getD "" ++ "-build-project"
      else "AWSAccelerator-BuildProject"
    toolkitProjectName :=
      if tsTruthy props.qualifier then (props.qualifier).getD "" ++ "-toolkit-project"
      else "AWSAccelerator-ToolkitProject"
    toolkitProjectEnv := toolkitProjectEnvironmentVariables props
    stages := describePipeline props }

/-- The environment-variable list of an action (empty for non-CodeBuild
actions). -/
def actionEnv (a : Action) : List (String × BuildEnvironmentVariable) :=
  match a.kind with
  | ActionKind.codeBuild _ _ _ env => env
  | _ => []

/-- The primary input artifact of an action, when it has one. -/
def actionInput (a : Action) : Option String :=
  match a.kind with
  | ActionKind.codeBuild input _ _ _ => some input
  | _ => none

/-- The extra input artifacts of an action. -/
def actionExtraInputs (a : Action) : List String :=
  match a.kind with
  | ActionKind.codeBuild _ extraInputs _ _ => extraInputs
  | _ => []

/-- The output artifacts of an action. -/
def actionOutputs (a : Action) : List String :=
  match a.kind with
  | ActionKind.codeCommitSource _ _ output _ => [output]
  | ActionKind.codeBuild _ _ outputs _ => outputs
  | ActionKind.manualApproval _ => []

/-- The fetched branch of a source action, when it is one. -/
def actionBranch (a : Action) : Option String :=
  match a.kind with
  | ActionKind.codeCommitSource _ branch _ _ => some branch
  | _ => none

/-! ### Sample configurations used as concrete instances -/

/-- A plain configuration: approval stage disabled, no qualifier, no
management-account identity. -/
def sampleProps : AcceleratorPipelineProps :=
  { sourceRepositoryName := "accelerator-source"
    sourceBranchName := "main"
    enableApprovalStage := false
    qualifier := none
    managementAccountId := none
    managementAccountRoleName := none }

/-- `sampleProps` with the approval stage enabled. -/
def approvalProps : AcceleratorPipelineProps :=
  { sampleProps with enableApprovalStage := true }

/-- A configuration supplying `managementAccountId` but not
`managementAccountRoleName`. -/
def onlyIdProps : AcceleratorPipelineProps :=
  { sampleProps with managementAccountId := some "123456789012" }

/-! ### C1 -/

/-- C1 counterexample: `createToolkitStage` never fails.  On the descriptor
with verb `deploy` and absent stage tag it succeeds and returns an action
whose `CDK_OPTIONS` command string is the malformed
"deploy --stage undefined" (TypeScript template interpolation of
`undefined`), contradicting the claim that construction fails with a
configuration error and never produces a malformed command string. -/
theorem C1_counterexample :
    createToolkitStage { actionName := "Prepare", command := "deploy" } =
      { actionName := "Prepare"
        runOrder := 1
        kind := ActionKind.codeBuild "Build" ["Config"] []
          [("CDK_OPTIONS",
            { varType := BuildEnvironmentVariableType.PLAINTEXT,
              value := "deploy --stage undefined" })] } := by
  rfl

/-- C1 amended: on a descriptor with verb `deploy` and empty or absent
stage tag, action construction does not fail; it returns an action whose
only environment variable is the malformed command string
"deploy --stage undefined" (absent tag) or "deploy --stage " (empty tag),
and no `ACCELERATOR_STAGE` variable is attached. -/
theorem C1_amended (p : ToolkitStageProps) (hc : p.command = "deploy")
    (hs : p.stage = none ∨ p.stage = some "") :
    createToolkitStage p =
      { actionName := p.actionName
        runOrder := (p.runOrder).getD 1
        kind := ActionKind.codeBuild "Build" ["Config"] []
          [("CDK_OPTIONS",
            { varType := BuildEnvironmentVariableType.PLAINTEXT,
              value := "deploy --stage " ++ tsInterpOpt p.stage })] } := by
  rcases hs with h | h <;>
    simp [createToolkitStage, hc, h, tsTruthy, tsInterpOpt,
      AcceleratorToolkitCommand.BOOTSTRAP, AcceleratorToolkitCommand.DIFF]

/-- Witness for C1 amended at a concrete descriptor. -/
theorem C1_amended_witness :
    createToolkitStage { actionName := "X", command := "deploy" } =
      { actionName := "X"
        runOrder := 1
        kind := ActionKind.codeBuild "Build" ["Config"] []
          [("CDK_OPTIONS",
            { varType := BuildEnvironmentVariableType.PLAINTEXT,
              value := "deploy --stage undefined" })] } :=
  C1_amended { actionName := "X", command := "deploy" } rfl (Or.inl rfl)

/-! ### C2 -/

/-- C2 counterexample: assembling with `managementAccountId` supplied and
`managementAccountRoleName` absent does not fail; it produces exactly the
same description as assembling with both absent — the silent defaulting
the claim rules out. -/
theorem C2_counterexample :
    constructPipeline onlyIdProps =
      constructPipeline { onlyIdProps with managementAccountId := none } := by
  rfl

/-- C2 amended: whenever either management-account field is missing (or
empty, which JavaScript truthiness treats the same way), assembly does not
fail: it produces exactly the description obtained with both fields
absent, silently omitting the management-account environment variables. -/
theorem C2_amended (p : AcceleratorPipelineProps)
    (h : tsTruthy p.managementAccountId = false
        ∨ tsTruthy p.managementAccountRoleName = false) :
    constructPipeline p =
      constructPipeline
        { p with managementAccountId := none, managementAccountRoleName := none } := by
  obtain ⟨srn, sbn, eas, q, mid, mrn⟩ := p
  rcases h with h | h <;>
    simp_all [constructPipeline, toolkitProjectEnvironmentVariables,
      pipelineAccountEnvVariables, describePipeline, tsTruthy]

/-- Witness for C2 amended at a concrete configuration. -/
theorem C2_amended_witness :
    constructPipeline onlyIdProps =
      constructPipeline
        { onlyIdProps with
            managementAccountId := none, managementAccountRoleName := none } :=
  C2_amended onlyIdProps (Or.inr rfl)

/-! ### C3 -/

/-- C3: for every configuration the emitted stage names are exactly
Source, Build, Prepare, Accounts, Bootstrap, (Review), Logging,
Organization, SecurityAudit, Deploy in this order, with Review present iff
`enableApprovalStage` is true. -/
theorem C3_stage_order (p : AcceleratorPipelineProps) :
    (describePipeline p).map Stage.stageName =
      ["Source", "Build", "Prepare", "Accounts", "Bootstrap"]
        ++ (if p.enableApprovalStage then ["Review"] else [])
        ++ ["Logging", "Organization", "SecurityAudit", "Deploy"] := by
  cases h : p.enableApprovalStage <;> simp [describePipeline, h]

/-- Witness for C3 at a concrete configuration. -/
theorem C3_stage_order_witness :
    (describePipeline sampleProps).map Stage.stageName =
      ["Source", "Build", "Prepare", "Accounts", "Bootstrap"]
        ++ (if sampleProps.enableApprovalStage then ["Review"] else [])
        ++ ["Logging", "Organization", "SecurityAudit", "Deploy"] :=
  C3_stage_order sampleProps

/-! ### C4 -/

/-- C4 counterexample: on a descriptor whose stage tag is supplied but
empty, the code's truthiness test `if (props.stage)` skips the
`ACCELERATOR_STAGE` variable, so the tag is supplied yet not attached —
refuting "attached exactly when a stage tag was supplied". -/
theorem C4_counterexample :
    ({ actionName := "A", command := "deploy", stage := some "" } :
        ToolkitStageProps).stage ≠ none
    ∧ List.lookup "ACCELERATOR_STAGE"
        (actionEnv (createToolkitStage
          { actionName := "A", command := "deploy", stage := some "" })) = none := by
  constructor
  · simp
  · rfl

/-- C4 amended: the command string under `CDK_OPTIONS` is the bare verb
for `bootstrap`/`diff` and "deploy --stage " ++ tag for `deploy` with a
supplied tag; the tag is attached verbatim under `ACCELERATOR_STAGE`
exactly when a non-empty stage tag was supplied. -/
theorem C4_amended (p : ToolkitStageProps) :
    ((p.command = "bootstrap" ∨ p.command = "diff") →
      List.lookup "CDK_OPTIONS" (actionEnv (createToolkitStage p)) =
        some { varType := BuildEnvironmentVariableType.PLAINTEXT,
               value := p.command })
    ∧ (∀ s : String, p.command = "deploy" → p.stage = some s →
        List.lookup "CDK_OPTIONS" (actionEnv (createToolkitStage p)) =
          some { varType := BuildEnvironmentVariableType.PLAINTEXT,
                 value := "deploy --stage " ++ s })
    ∧ List.lookup "ACCELERATOR_STAGE" (actionEnv (createToolkitStage p)) =
        (match p.stage with
         | some s =>
             if s = "" then none
             else some { varType := BuildEnvironmentVariableType.PLAINTEXT,
                         value := s }
         | none => none) := by
  obtain ⟨an, cmd, stg, ro⟩ := p
  refine ⟨?_, ?_, ?_⟩
  · rintro (rfl | rfl) <;> cases stg with
    | none =>
        simp [createToolkitStage, actionEnv, tsTruthy,
          AcceleratorToolkitCommand.BOOTSTRAP, AcceleratorToolkitCommand.DIFF]
    | some s =>
        by_cases hs : s = "" <;>
          simp [createToolkitStage, actionEnv, tsTruthy, hs,
            AcceleratorToolkitCommand.BOOTSTRAP, AcceleratorToolkitCommand.DIFF]
  · rintro s rfl rfl
    by_cases hs : s = "" <;>
      simp [createToolkitStage, actionEnv, tsTruthy, tsInterpOpt, hs,
        AcceleratorToolkitCommand.BOOTSTRAP, AcceleratorToolkitCommand.DIFF]
  · cases stg with
    | none =>
        simp [createToolkitStage, actionEnv, tsTruthy]
    | some s =>
        by_cases hs : s = "" <;>
          by_cases hb : (cmd = "bootstrap" ∨ cmd = "diff") <;>
            simp [createToolkitStage, actionEnv, tsTruthy, hs, hb, List.lookup,
              AcceleratorToolkitCommand.BOOTSTRAP, AcceleratorToolkitCommand.DIFF]

/-- Witness for C4 amended at a concrete deploy descriptor. -/
theorem C4_amended_witness :
    List.lookup "CDK_OPTIONS"
      (actionEnv (createToolkitStage
        { actionName := "Logging", command := "deploy", stage := some "logging" })) =
      some { varType := BuildEnvironmentVariableType.PLAINTEXT,
             value := "deploy --stage logging" } :=
  (C4_amended
    { actionName := "Logging", command := "deploy", stage := some "logging" }).2.1
    "logging" rfl rfl

/-! ### C5 -/

/-- C5: for every configuration the pipeline contains exactly one stage
named Deploy, and its actions, in order and with their run-orders, are
exactly Network_Prepare (1), Security (1), Operations (1),
Network_VPCs (2), Network_Associations (3). -/
theorem C5_deploy_actions (p : AcceleratorPipelineProps) :
    ((describePipeline p).filter (fun s => s.stageName == "Deploy")).map
        (fun s => s.actions.map (fun a => (a.actionName, a.runOrder))) =
      [[("Network_Prepare", 1), ("Security", 1), ("Operations", 1),
        ("Network_VPCs", 2), ("Network_Associations", 3)]] := by
  cases h : p.enableApprovalStage <;>
    simp [describePipeline, h, createToolkitStage]

/-- Witness for C5 at a concrete configuration. -/
theorem C5_deploy_actions_witness :
    ((describePipeline sampleProps).filter (fun s => s.stageName == "Deploy")).map
        (fun s => s.actions.map (fun a => (a.actionName, a.runOrder))) =
      [[("Network_Prepare", 1), ("Security", 1), ("Operations", 1),
        ("Network_VPCs", 2), ("Network_Associations", 3)]] :=
  C5_deploy_actions sampleProps

/-! ### C6 -/

/-- C6: with the approval flag true, the stage names place Review exactly
between Bootstrap and Logging, and the unique Review stage holds exactly
two actions: Diff at run-order 1 (a diff toolkit CodeBuild action) and
Approve at run-order 2 (a manual-approval action). -/
theorem C6_review_stage (p : AcceleratorPipelineProps)
    (h : p.enableApprovalStage = true) :
    (describePipeline p).map Stage.stageName =
      ["Source", "Build", "Prepare", "Accounts", "Bootstrap", "Review",
       "Logging", "Organization", "SecurityAudit", "Deploy"]
    ∧ (describePipeline p).filter (fun s => s.stageName == "Review") =
      [{ stageName := "Review"
         actions :=
           [{ actionName := "Diff"
              runOrder := 1
              kind := ActionKind.codeBuild "Build" ["Config"] []
                [("CDK_OPTIONS",
                  { varType := BuildEnvironmentVariableType.PLAINTEXT,
                    value := "diff" })] },
            { actionName := "Approve"
              runOrder := 2
              kind := ActionKind.manualApproval
                "See previous stage (Diff) for changes." }] }] := by
  constructor <;>
    simp [describePipeline, h, createToolkitStage, tsTruthy,
      AcceleratorToolkitCommand.BOOTSTRAP, AcceleratorToolkitCommand.DIFF]

/-- Witness for C6 at a concrete configuration with the approval flag
true. -/
theorem C6_review_stage_witness :
    (describePipeline approvalProps).map Stage.stageName =
      ["Source", "Build", "Prepare", "Accounts", "Bootstrap", "Review",
       "Logging", "Organization", "SecurityAudit", "Deploy"] :=
  (C6_review_stage approvalProps rfl).1

/-! ### C7 -/

/-- C7: every action the factory `createToolkitStage` returns has the
build-output artifact as primary input, the config artifact as its single
extra input, and no output artifacts. -/
theorem C7_toolkit_action_artifacts (p : ToolkitStageProps) :
    actionInput (createToolkitStage p) = some "Build"
    ∧ actionExtraInputs (createToolkitStage p) = ["Config"]
    ∧ actionOutputs (createToolkitStage p) = [] :=
  ⟨rfl, rfl, rfl⟩

/-- Witness for C7 at a concrete descriptor. -/
theorem C7_toolkit_action_artifacts_witness :
    actionInput (createToolkitStage
        { actionName := "Bootstrap", command := "bootstrap" }) = some "Build"
    ∧ actionExtraInputs (createToolkitStage
        { actionName := "Bootstrap", command := "bootstrap" }) = ["Config"]
    ∧ actionOutputs (createToolkitStage
        { actionName := "Bootstrap", command := "bootstrap" }) = [] :=
  C7_toolkit_action_artifacts { actionName := "Bootstrap", command := "bootstrap" }

/-! ### C8 -/

/-- C8: for every configuration and every emitted stage, no two actions of
that stage share an action name. -/
theorem C8_action_names_nodup (p : AcceleratorPipelineProps) :
    ∀ s ∈ describePipeline p, (s.actions.map Action.actionName).Nodup := by
  intro s hs
  cases h : p.enableApprovalStage <;>
    simp only [describePipeline, h, if_true, if_false, Bool.false_eq_true,
      List.append_nil, List.nil_append, List.cons_append, List.mem_cons,
      List.not_mem_nil, or_false] at hs <;>
    rcases hs with rfl | rfl | rfl | rfl | rfl | rfl | rfl | rfl | rfl | rfl | rfl <;>
    simp [createToolkitStage]

/-- Witness for C8: the Bootstrap stage of a concrete configuration has
pairwise distinct action names. -/
theorem C8_action_names_nodup_witness :
    ((({ stageName := "Bootstrap"
         actions := [createToolkitStage
           { actionName := "Bootstrap", command := "bootstrap" }] } :
        Stage).actions).map Action.actionName).Nodup :=
  C8_action_names_nodup sampleProps _ (by decide)

/-! ### C9 -/

/-- C9: assembly is deterministic — identical configurations produce
structurally identical pipeline descriptions (stages, actions, run-orders,
command strings, environment variables and artifact bindings). -/
theorem C9_deterministic (p q : AcceleratorPipelineProps) (h : p = q) :
    constructPipeline p = constructPipeline q := by
  rw [h]

/-- Witness for C9 at a concrete configuration. -/
theorem C9_deterministic_witness :
    constructPipeline sampleProps = constructPipeline sampleProps :=
  C9_deterministic sampleProps sampleProps rfl

/-! ### C10 -/

/-- C10: for every configuration the unique Source stage holds the action
Source fetching the configured `sourceBranchName` and the action
Configuration fetching the fixed branch "main"; moreover the config
repository itself is created with branch "main".  Hence `sourceBranchName`
influences only the Source action's branch. -/
theorem C10_config_branch (p : AcceleratorPipelineProps) :
    ((describePipeline p).filter (fun s => s.stageName == "Source")).map
        (fun s => s.actions.map (fun a => (a.actionName, actionBranch a))) =
      [[("Source", some p.sourceBranchName), ("Configuration", some "main")]]
    ∧ (constructPipeline p).configRepositoryBranch = "main" := by
  constructor
  · cases h : p.enableApprovalStage <;>
      simp [describePipeline, h, actionBranch, createToolkitStage]
  · rfl

/-- Witness for C10 at a concrete configuration. -/
theorem C10_config_branch_witness :
    ((describePipeline sampleProps).filter (fun s => s.stageName == "Source")).map
        (fun s => s.actions.map (fun a => (a.actionName, actionBranch a))) =
      [[("Source", some sampleProps.sourceBranchName),
        ("Configuration", some "main")]]
    ∧ (constructPipeline sampleProps).configRepositoryBranch = "main" :=
  C10_config_branch sampleProps

end LZA
